import Mathlib

/-!
Verification of the webshot screenshot service core (src/core/shotlink.go).

The Go source is shallowly embedded here:
* strings are byte lists (Go strings are byte slices); machine words are
  naturals reduced mod 2^32 where the source uses 32-bit arithmetic;
* the MD5 digest used by getCacheKey is implemented in full (RFC 1321);
* the channel-based worker pool is a state machine over an explicit state
  record, with acquire/release events mirroring getWorker/releaseWorker;
* HandleScreenshot is a pure function of the request, the cache contents
  and an oracle fixing the acquire and render outcomes of the request.
-/

namespace Webshot

/-! ## 32-bit word arithmetic (Go uint32 operations used by crypto/md5) -/

def w32 (n : Nat) : Nat := n % 4294967296

def add32 (a b : Nat) : Nat := (a + b) % 4294967296

def not32 (a : Nat) : Nat := Nat.xor a 4294967295

def rotl32 (s a : Nat) : Nat :=
  w32 (Nat.lor (Nat.shiftLeft (w32 a) s) (Nat.shiftRight (w32 a) (32 - s)))

/-! ## MD5 (crypto/md5), as called by getCacheKey -/

def mdF (b c d : Nat) : Nat := Nat.lor (Nat.land b c) (Nat.land (not32 b) d)

def mdG (b c d : Nat) : Nat := Nat.lor (Nat.land d b) (Nat.land (not32 d) c)

def mdH (b c d : Nat) : Nat := Nat.xor (Nat.xor b c) d

def mdI (b c d : Nat) : Nat := Nat.xor c (Nat.lor b (not32 d))

/-- The 64 sine-derived constants of MD5 (RFC 1321 T table). -/
def mdK : List Nat :=
  [0xd76aa478, 0xe8c7b756, 0x242070db, 0xc1bdceee,
   0xf57c0faf, 0x4787c62a, 0xa8304613, 0xfd469501,
   0x698098d8, 0x8b44f7af, 0xffff5bb1, 0x895cd7be,
   0x6b901122, 0xfd987193, 0xa679438e, 0x49b40821,
   0xf61e2562, 0xc040b340, 0x265e5a51, 0xe9b6c7aa,
   0xd62f105d, 0x02441453, 0xd8a1e681, 0xe7d3fbc8,
   0x21e1cde6, 0xc33707d6, 0xf4d50d87, 0x455a14ed,
   0xa9e3e905, 0xfcefa3f8, 0x676f02d9, 0x8d2a4c8a,
   0xfffa3942, 0x8771f681, 0x6d9d6122, 0xfde5380c,
   0xa4beea44, 0x4bdecfa9, 0xf6bb4b60, 0xbebfbc70,
   0x289b7ec6, 0xeaa127fa, 0xd4ef3085, 0x04881d05,
   0xd9d4d039, 0xe6db99e5, 0x1fa27cf8, 0xc4ac5665,
   0xf4292244, 0x432aff97, 0xab9423a7, 0xfc93a039,
   0x655b59c3, 0x8f0ccc92, 0xffeff47d, 0x85845dd1,
   0x6fa87e4f, 0xfe2ce6e0, 0xa3014314, 0x4e0811a1,
   0xf7537e82, 0xbd3af235, 0x2ad7d2bb, 0xeb86d391]

/-- The per-step left-rotation amounts of MD5. -/
def mdS : List Nat :=
  [7, 12, 17, 22, 7, 12, 17, 22, 7, 12, 17, 22, 7, 12, 17, 22,
   5, 9, 14, 20, 5, 9, 14, 20, 5, 9, 14, 20, 5, 9, 14, 20,
   4, 11, 16, 23, 4, 11, 16, 23, 4, 11, 16, 23, 4, 11, 16, 23,
   6, 10, 15, 21, 6, 10, 15, 21, 6, 10, 15, 21, 6, 10, 15, 21]

/-- One MD5 step: given the 16 message words and the register tuple
(a, b, c, d), perform step i of the 64-step compression loop. -/
def mdRound (m : List Nat) (st : Nat × Nat × Nat × Nat) (i : Nat) :
    Nat × Nat × Nat × Nat :=
  let a := st.1
  let b := st.2.1
  let c := st.2.2.1
  let d := st.2.2.2
  let f :=
    if i < 16 then mdF b c d
    else if i < 32 then mdG b c d
    else if i < 48 then mdH b c d
    else mdI b c d
  let g :=
    if i < 16 then i
    else if i < 32 then (5 * i + 1) % 16
    else if i < 48 then (3 * i + 5) % 16
    else (7 * i) % 16
  let tmp := add32 (add32 (add32 a f) (m.getD g 0)) (mdK.getD i 0)
  (d, add32 b (rotl32 (mdS.getD i 0) tmp), b, c)

/-- Compress one 16-word block into the running state. -/
def mdProcessBlock (st : Nat × Nat × Nat × Nat) (m : List Nat) :
    Nat × Nat × Nat × Nat :=
  let r := (List.range 64).foldl (mdRound m) st
  (add32 st.1 r.1, add32 st.2.1 r.2.1, add32 st.2.2.1 r.2.2.1,
   add32 st.2.2.2 r.2.2.2)

/-- Little-endian packing of bytes into 32-bit words. -/
def leWords : List Nat → List Nat
  | b0 :: b1 :: b2 :: b3 :: rest =>
      (b0 + 256 * b1 + 65536 * b2 + 16777216 * b3) :: leWords rest
  | _ => []

/-- Little-endian byte expansion of a natural, fixed width. -/
def leBytes (n : Nat) : Nat → List Nat
  | 0 => []
  | c + 1 => n % 256 :: leBytes (n / 256) c

/-- Split a padded byte string into 16-word blocks (fuel-indexed so the
definition is structural and kernel-reducible). -/
def mdBlocksAux : Nat → List Nat → List (List Nat)
  | 0, _ => []
  | _, [] => []
  | fuel + 1, l => leWords (l.take 64) :: mdBlocksAux fuel (l.drop 64)

def mdBlocks (l : List Nat) : List (List Nat) := mdBlocksAux l.length l

/-- MD5 padding: a 0x80 byte, zeros to 56 mod 64, then the bit length as
eight little-endian bytes. -/
def mdPad (msg : List Nat) : List Nat :=
  msg ++ 128 :: List.replicate ((119 - msg.length % 64) % 64) 0
      ++ leBytes (8 * msg.length) 8

def md5init : Nat × Nat × Nat × Nat :=
  (0x67452301, 0xefcdab89, 0x98badcfe, 0x10325476)

def md5state (msg : List Nat) : Nat × Nat × Nat × Nat :=
  (mdBlocks (mdPad msg)).foldl mdProcessBlock md5init

/-- The 16-byte MD5 digest of a byte string. -/
def md5bytes (msg : List Nat) : List Nat :=
  let st := md5state msg
  leBytes st.1 4 ++ leBytes st.2.1 4 ++ leBytes st.2.2.1 4 ++ leBytes st.2.2.2 4

/-! ## Hex encoding (encoding/hex.EncodeToString) -/

def hexDigitChar (n : Nat) : Char :=
  if n < 10 then Char.ofNat (48 + n) else Char.ofNat (87 + n)

def hexByte (b : Nat) : List Char := [hexDigitChar (b / 16), hexDigitChar (b % 16)]

def hexEncode (bs : List Nat) : String := String.mk ((bs.map hexByte).flatten)

/-! ## Decimal rendering of naturals (the %d verb in fmt.Sprintf) -/

/-- Decimal digits of a natural as ASCII byte values, most significant
first; fuel-indexed structural recursion. -/
def decBytesAux : Nat → Nat → List Nat
  | 0, _ => []
  | fuel + 1, n =>
      if n < 10 then [48 + n] else decBytesAux fuel (n / 10) ++ [48 + n % 10]

def decBytes (n : Nat) : List Nat := decBytesAux (n + 1) n

def decChars (n : Nat) : List Char := (decBytes n).map Char.ofNat

/-! ## getCacheKey (shotlink.go lines 202-205):
hex(md5(fmt.Sprintf("%s:%dx%d", url, width, height))). -/

/-- The byte string fmt.Sprintf("%s:%dx%d", url, width, height):
url bytes, then a colon (58), decimal width, an x (120), decimal height. -/
def serializeKey (url : List Nat) (width height : Nat) : List Nat :=
  url ++ 58 :: (decBytes width ++ 120 :: decBytes height)

def getCacheKey (url : List Nat) (width height : Nat) : String :=
  hexEncode (md5bytes (serializeKey url width height))

set_option maxRecDepth 100000 in
/-- Sanity check of the MD5 embedding against the RFC 1321 test vector
for "abc". -/
theorem md5_vector_abc :
    hexEncode (md5bytes [97, 98, 99]) = "900150983cd24fb0d6963f7d28e17f72" := by
  decide

set_option maxRecDepth 100000 in
/-- Sanity check of getCacheKey: the key of url "a" at 1x1 is the MD5 hex
digest of "a:1x1". -/
theorem getCacheKey_vector :
    getCacheKey [97] 1 1 = "3db17032e1d23d4ef3a2f4a7785ad0be" := by
  decide

/-! ## A concrete MD5 collision (Wang, Feng, Lai, Yu 2004): two distinct
128-byte inputs with the same digest. Used to refute fingerprint
injectivity. -/

def wangMsg1 : List Nat :=
  [209, 49, 221, 2, 197, 230, 238, 196, 105, 61, 154, 6, 152, 175, 249, 92,
   47, 202, 181, 135, 18, 70, 126, 171, 64, 4, 88, 62, 184, 251, 127, 137,
   85, 173, 52, 6, 9, 244, 179, 2, 131, 228, 136, 131, 37, 113, 65, 90,
   8, 81, 37, 232, 247, 205, 201, 159, 217, 29, 189, 242, 128, 55, 60, 91,
   216, 130, 62, 49, 86, 52, 143, 91, 174, 109, 172, 212, 54, 201, 25, 198,
   221, 83, 226, 180, 135, 218, 3, 253, 2, 57, 99, 6, 210, 72, 205, 160,
   233, 159, 51, 66, 15, 87, 126, 232, 206, 84, 182, 112, 128, 168, 13, 30,
   198, 152, 33, 188, 182, 168, 131, 147, 150, 249, 101, 43, 111, 247, 42, 112]

def wangMsg2 : List Nat :=
  [209, 49, 221, 2, 197, 230, 238, 196, 105, 61, 154, 6, 152, 175, 249, 92,
   47, 202, 181, 7, 18, 70, 126, 171, 64, 4, 88, 62, 184, 251, 127, 137,
   85, 173, 52, 6, 9, 244, 179, 2, 131, 228, 136, 131, 37, 241, 65, 90,
   8, 81, 37, 232, 247, 205, 201, 159, 217, 29, 189, 114, 128, 55, 60, 91,
   216, 130, 62, 49, 86, 52, 143, 91, 174, 109, 172, 212, 54, 201, 25, 198,
   221, 83, 226, 52, 135, 218, 3, 253, 2, 57, 99, 6, 210, 72, 205, 160,
   233, 159, 51, 66, 15, 87, 126, 232, 206, 84, 182, 112, 128, 40, 13, 30,
   198, 152, 33, 188, 182, 168, 131, 147, 150, 249, 101, 171, 111, 247, 42, 112]

/-! ## Injectivity of the pre-hash serialization -/

/-- Every byte emitted by the decimal rendering is an ASCII digit. -/
theorem decBytesAux_digit :
    ∀ fuel n b, b ∈ decBytesAux fuel n → 48 ≤ b ∧ b ≤ 57 := by
  intro fuel
  induction fuel with
  | zero => intro n b hb; simp [decBytesAux] at hb
  | succ fuel ih =>
      intro n b hb
      by_cases h : n < 10
      · simp [decBytesAux, h] at hb
        omega
      · simp [decBytesAux, h, List.mem_append] at hb
        rcases hb with hb | hb
        · exact ih _ _ hb
        · have : n % 10 < 10 := Nat.mod_lt _ (by omega)
          omega

theorem decBytes_digit {n b : Nat} (hb : b ∈ decBytes n) : 48 ≤ b ∧ b ≤ 57 :=
  decBytesAux_digit _ _ _ hb

/-- Folding the digits back recovers the rendered number (with the fold
seeded at any accumulator). -/
theorem decBytesAux_foldl :
    ∀ fuel n a, n < fuel →
      List.foldl (fun acc b => acc * 10 + (b - 48)) a (decBytesAux fuel n) =
        a * 10 ^ (decBytesAux fuel n).length + n := by
  intro fuel
  induction fuel with
  | zero => intro n a h; omega
  | succ fuel ih =>
      intro n a h
      by_cases h10 : n < 10
      · simp only [decBytesAux, if_pos h10, List.foldl_cons, List.foldl_nil,
          List.length_cons, List.length_nil, Nat.zero_add, pow_one]
        omega
      · have hdiv : n / 10 < fuel := by
          have h1 : n / 10 < n := Nat.div_lt_self (by omega) (by omega)
          omega
        simp only [decBytesAux, if_neg h10, List.foldl_append, List.foldl_cons,
          List.foldl_nil, List.length_append, List.length_cons, List.length_nil,
          Nat.zero_add]
        rw [ih _ a hdiv, pow_succ, ← mul_assoc]
        generalize a * 10 ^ (decBytesAux fuel (n / 10)).length = q
        omega

/-- The decimal rendering is injective. -/
theorem decBytes_inj {n1 n2 : Nat} (h : decBytes n1 = decBytes n2) : n1 = n2 := by
  have h1 := decBytesAux_foldl (n1 + 1) n1 0 (Nat.lt_succ_self _)
  have h2 := decBytesAux_foldl (n2 + 1) n2 0 (Nat.lt_succ_self _)
  unfold decBytes at h
  rw [h] at h1
  rw [h1] at h2
  omega

/-- Splitting at a separator absent from both right parts is unambiguous. -/
theorem append_sep_inj :
    ∀ (l1 l2 r1 r2 : List Nat) (c : Nat), c ∉ r1 → c ∉ r2 →
      l1 ++ c :: r1 = l2 ++ c :: r2 → l1 = l2 ∧ r1 = r2 := by
  intro l1
  induction l1 with
  | nil =>
      intro l2 r1 r2 c hc1 hc2 heq
      cases l2 with
      | nil => simpa using heq
      | cons x t =>
          simp only [List.nil_append, List.cons_append, List.cons.injEq] at heq
          exfalso
          exact hc1 (heq.2 ▸ List.mem_append_right t (List.mem_cons_self c r2))
  | cons x t ih =>
      intro l2 r1 r2 c hc1 hc2 heq
      cases l2 with
      | nil =>
          simp only [List.cons_append, List.nil_append, List.cons.injEq] at heq
          exfalso
          exact hc2 (heq.2 ▸ List.mem_append_right t (List.mem_cons_self c r1))
      | cons y u =>
          simp only [List.cons_append, List.cons.injEq] at heq
          obtain ⟨hxy, heq⟩ := heq
          obtain ⟨h1, h2⟩ := ih u r1 r2 c hc1 hc2 heq
          exact ⟨by rw [hxy, h1], h2⟩

theorem colon_not_in_tail (w h : Nat) :
    (58 : Nat) ∉ decBytes w ++ 120 :: decBytes h := by
  intro hmem
  rcases List.mem_append.mp hmem with hm | hm
  · have := decBytes_digit hm; omega
  · rcases List.mem_cons.mp hm with hm | hm
    · omega
    · have := decBytes_digit hm; omega

theorem x_not_in_dec (h : Nat) : (120 : Nat) ∉ decBytes h := by
  intro hmem
  have := decBytes_digit hmem
  omega

/-- The serialization fmt.Sprintf("%s:%dx%d", url, w, h) is injective:
equal serialized byte strings force equal url, width and height. -/
theorem serializeKey_inj {u1 u2 : List Nat} {w1 h1 w2 h2 : Nat}
    (heq : serializeKey u1 w1 h1 = serializeKey u2 w2 h2) :
    u1 = u2 ∧ w1 = w2 ∧ h1 = h2 := by
  unfold serializeKey at heq
  obtain ⟨hu, htail⟩ :=
    append_sep_inj u1 u2 _ _ 58 (colon_not_in_tail w1 h1) (colon_not_in_tail w2 h2) heq
  obtain ⟨hw, hh⟩ :=
    append_sep_inj _ _ _ _ 120 (x_not_in_dec h1) (x_not_in_dec h2) htail
  exact ⟨hu, decBytes_inj hw, decBytes_inj hh⟩

/-! ## Response cache (screenCache : sync.Map, cacheEntry, and the uses in
HandleScreenshot lines 256-271 / 313-320 and cleanupExpiredCache 157-180).
The concurrent map is modelled as an association list with shadowing
insert; timestamps are naturals (seconds). -/

abbrev CacheMap := List (String × (List Nat × Nat))

/-- screenCache.Store(key, &cacheEntry{data: v, timestamp: now}). -/
def cachePut (c : CacheMap) (k : String) (v : List Nat) (now : Nat) : CacheMap :=
  (k, (v, now)) :: c.filter (fun e => !(e.1 == k))

/-- The read side of HandleScreenshot's cache check: a hit only when an
entry exists and time.Since(entry.timestamp) < cacheDuration. -/
def cacheGet (c : CacheMap) (k : String) (now ttl : Nat) : Option (List Nat) :=
  match c.lookup k with
  | some (v, ts) => if now - ts < ttl then some v else none
  | none => none

/-- One pass of cleanupExpiredCache: delete entries strictly older than
the TTL (now.Sub(entry.timestamp) > cacheDuration). -/
def cacheSweep (c : CacheMap) (now ttl : Nat) : CacheMap :=
  c.filter (fun e => !(ttl < now - e.2.2))

/-! ## Worker pool (workerPool : chan *chromeWorker, initializeWorkerPool,
getWorker, releaseWorker, Shutdown). Workers are identified by their id;
the channel buffer is the available list; checkedOut is the ghost set of
workers handed out and not yet returned; cancels counts how many times
each worker's CancelFunc has run. -/

structure PoolState where
  capacity : Nat
  available : List Nat
  checkedOut : List Nat
  shutdownClosed : Bool
  onceDone : Bool
  cancels : Nat → Nat

/-- initializeWorkerPool: a channel of capacity maxWorkers holding the N
fresh workers; shutdownChan open; sync.Once not yet fired. -/
def initPool (n : Nat) : PoolState :=
  { capacity := n, available := List.range n, checkedOut := [],
    shutdownClosed := false, onceDone := false, cancels := fun _ => 0 }

inductive PoolEvent where
  | acquireOk
  | acquireFail
  | release (w : Nat)
deriving DecidableEq, Repr

/-- One pool transition. acquireOk is the worker-received arm of
getWorker's select (only fires when the buffer is nonempty). release w is
releaseWorker: the send succeeds when the buffer has room, otherwise the
worker is dropped with a warning (the defensive default branch). -/
def step (s : PoolState) : PoolEvent → PoolState
  | .acquireOk =>
      match s.available with
      | [] => s
      | w :: rest => { s with available := rest, checkedOut := w :: s.checkedOut }
  | .acquireFail => s
  | .release w =>
      let co := s.checkedOut.erase w
      if s.available.length < s.capacity then
        { s with available := w :: s.available, checkedOut := co }
      else
        { s with checkedOut := co }

def applyTrace : PoolState → List PoolEvent → PoolState
  | s, [] => s
  | s, e :: rest => applyTrace (step s e) rest

/-- An event is admissible when the runtime could produce it: an acquire
succeeds only by receiving a buffered worker, and releaseWorker is only
ever invoked (via defer) on a worker obtained from a successful
getWorker, hence currently checked out. -/
def validEvent (s : PoolState) : PoolEvent → Bool
  | .acquireOk => !s.available.isEmpty
  | .acquireFail => true
  | .release w => s.checkedOut.contains w

def validTrace : PoolState → List PoolEvent → Bool
  | _, [] => true
  | s, e :: rest => validEvent s e && validTrace (step s e) rest

/-- Shutdown (lines 207-222): shutdownOnce.Do closes shutdownChan and
invokes every worker's cancel. Buffered workers are not drained. -/
def shutdownStep (s : PoolState) : PoolState :=
  if s.onceDone then s
  else
    { s with
      onceDone := true
      shutdownClosed := true
      cancels := fun w => if w < s.capacity then s.cancels w + 1 else s.cancels w }

def applyShutdowns : Nat → PoolState → PoolState
  | 0, s => s
  | k + 1, s => applyShutdowns k (shutdownStep s)

/-- The three arms of getWorker's select statement. -/
inductive SelectChoice where
  | recvWorker
  | timeoutFires
  | shutdownFires
deriving DecidableEq, Repr

/-- Which arms are ready: the receive when a worker is buffered, the
time.After arm once the wait budget has elapsed, and the shutdownChan arm
once the channel is closed. Go's select picks (pseudo-randomly) among
ready arms, blocking while none is ready. -/
def choiceReady (s : PoolState) (elapsed : Bool) : SelectChoice → Bool
  | .recvWorker => !s.available.isEmpty
  | .timeoutFires => elapsed
  | .shutdownFires => s.shutdownClosed

inductive AcquireResult where
  | ok (w : Nat)
  | errTimeout
  | errShutdown
deriving DecidableEq, Repr

/-- The effect of getWorker resolving through a given select arm. -/
def getWorkerRun (s : PoolState) : SelectChoice → AcquireResult × PoolState
  | .recvWorker =>
      match s.available with
      | [] => (.errTimeout, s)
      | w :: rest =>
          (.ok w, { s with available := rest, checkedOut := w :: s.checkedOut })
  | .timeoutFires => (.errTimeout, s)
  | .shutdownFires => (.errShutdown, s)

def isOkResult : AcquireResult → Bool
  | .ok _ => true
  | _ => false

/-! ## strconv.Atoi and the width/height validation -/

def digitsVal (l : List Char) : Nat :=
  l.foldl (fun acc c => acc * 10 + (c.toNat - 48)) 0

def allDigits (l : List Char) : Bool :=
  l.all (fun c => 48 ≤ c.toNat && c.toNat ≤ 57)

def atoiCore (l : List Char) : Option Nat :=
  if l.isEmpty then none
  else if allDigits l then some (digitsVal l) else none

/-- strconv.Atoi: optional sign, decimal digits, 64-bit range. -/
def atoi (s : String) : Option Int :=
  match s.toList with
  | '-' :: rest =>
      match atoiCore rest with
      | some n => if n ≤ 9223372036854775808 then some (-(n : Int)) else none
      | none => none
  | '+' :: rest =>
      match atoiCore rest with
      | some n => if n < 9223372036854775808 then some (n : Int) else none
      | none => none
  | l =>
      match atoiCore l with
      | some n => if n < 9223372036854775808 then some (n : Int) else none
      | none => none

/-- The width/height parameter handling (lines 244-254): start from the
default; replace it only when the parameter is present, parses, is
positive and does not exceed the bound. -/
def clampDim (param : String) (bound dflt : Nat) : Nat :=
  if param = "" then dflt
  else
    match atoi param with
    | some v => if 0 < v ∧ v ≤ (bound : Int) then v.toNat else dflt
    | none => dflt

/-! ## HandleScreenshot (lines 224-327), as a pure function of the
request, the cache contents and an oracle fixing this request's acquire
and render outcomes. The result records the response, the new cache, the
cache keys looked up, whether the pool was consulted, which workers were
released (defer releaseWorker), and the metric counter increments. -/

structure Request where
  url : List Nat
  widthParam : String
  heightParam : String

inductive AcquireOutcome where
  | ok (w : Nat)
  | timeoutErr
  | shutdownErr
deriving DecidableEq, Repr

inductive RenderOutcome where
  | success (data : List Nat)
  | deadlineExceeded
  | renderFailure
  | panics
deriving DecidableEq, Repr

structure Env where
  cacheEnabled : Bool
  cacheDurationSecs : Nat
  now : Nat
  acquire : AcquireOutcome
  render : RenderOutcome

def requestWidth (req : Request) : Nat := clampDim req.widthParam 3840 1280

def requestHeight (req : Request) : Nat := clampDim req.heightParam 2160 720

def requestKey (req : Request) : String :=
  getCacheKey req.url (requestWidth req) (requestHeight req)

/-- fmt.Sprintf("public, max-age=%d", int(cacheDuration.Seconds())). -/
def cacheControlValue (ttl : Nat) : String :=
  "public, max-age=" ++ String.mk (decChars ttl)

structure HandlerResult where
  status : Nat := 200
  contentType : Option String := none
  xCache : Option String := none
  cacheControl : Option String := none
  body : List Nat := []
  cacheOut : CacheMap := []
  cacheLookups : List String := []
  acquireAttempted : Bool := false
  released : List Nat := []
  totalDelta : Nat := 1
  failedDelta : Nat := 0
  timeoutDelta : Nat := 0

def handleScreenshot (env : Env) (cache : CacheMap) (req : Request) :
    HandlerResult :=
  if req.url = [] then
    { status := 400, cacheOut := cache }
  else
    let key := requestKey req
    let lookups := if env.cacheEnabled then [key] else []
    let hit :=
      if env.cacheEnabled then cacheGet cache key env.now env.cacheDurationSecs
      else none
    match hit with
    | some data =>
        { status := 200, contentType := some "image/png", xCache := some "HIT",
          cacheControl := some (cacheControlValue env.cacheDurationSecs),
          body := data, cacheOut := cache, cacheLookups := lookups }
    | none =>
        match env.acquire with
        | .timeoutErr =>
            { status := 503, cacheOut := cache, cacheLookups := lookups,
              acquireAttempted := true, failedDelta := 1, timeoutDelta := 1 }
        | .shutdownErr =>
            { status := 503, cacheOut := cache, cacheLookups := lookups,
              acquireAttempted := true, failedDelta := 1, timeoutDelta := 1 }
        | .ok w =>
            match env.render with
            | .success buf =>
                let cache2 :=
                  if env.cacheEnabled && !buf.isEmpty then
                    cachePut cache key buf env.now
                  else cache
                { status := 200, contentType := some "image/png",
                  xCache := some "MISS",
                  cacheControl := some (cacheControlValue env.cacheDurationSecs),
                  body := buf, cacheOut := cache2, cacheLookups := lookups,
                  acquireAttempted := true, released := [w] }
            | .deadlineExceeded =>
                { status := 408, cacheOut := cache, cacheLookups := lookups,
                  acquireAttempted := true, released := [w],
                  failedDelta := 1, timeoutDelta := 1 }
            | .renderFailure =>
                { status := 500, cacheOut := cache, cacheLookups := lookups,
                  acquireAttempted := true, released := [w], failedDelta := 1 }
            | .panics =>
                { status := 500, cacheOut := cache, cacheLookups := lookups,
                  acquireAttempted := true, released := [w], failedDelta := 1 }

/-! ## Metrics and HandleHealth (lines 351-373) -/

structure Metrics where
  total : Nat := 0
  failed : Nat := 0
  timeouts : Nat := 0

def applyRequest (m : Metrics) (r : HandlerResult) : Metrics :=
  { total := m.total + r.totalDelta, failed := m.failed + r.failedDelta,
    timeouts := m.timeouts + r.timeoutDelta }

structure HealthResult where
  statusText : String
  statusCode : Nat
  totalReported : Nat
  failedReported : Nat
  timeoutReported : Nat
  availableReported : Nat
  maxReported : Nat

def handleHealth (m : Metrics) (availableWorkers maxW : Nat) : HealthResult :=
  { statusText := if availableWorkers = 0 then "degraded" else "healthy",
    statusCode := if availableWorkers = 0 then 429 else 200,
    totalReported := m.total, failedReported := m.failed,
    timeoutReported := m.timeouts, availableReported := availableWorkers,
    maxReported := maxW }

/-! ## captureScreenshot (lines 329-349) and the timeout configuration
(lines 273-285) -/

/-- The SCREENSHOT_TIMEOUT / WORKER_TIMEOUT parsing pattern: keep the
default unless the variable is set, parses, and is positive. -/
def parseEnvSeconds (v : String) (dflt : Nat) : Nat :=
  if v = "" then dflt
  else
    match atoi v with
    | some n => if 0 < n then n.toNat else dflt
    | none => dflt

def screenshotTimeoutSecs (v : String) : Nat := parseEnvSeconds v 45

def workerTimeoutSecs (v : String) : Nat := parseEnvSeconds v 15

inductive CaptureAction where
  | setViewport (width height : Nat)
  | navigate (url : List Nat)
  | waitReady (selector : String)
  | sleepSecs (n : Nat)
  | fullScreenshot (quality : Nat)
deriving DecidableEq, Repr

/-- The chromedp.Run action list of captureScreenshot, in source order. -/
def capturePlan (url : List Nat) (width height : Nat) : List CaptureAction :=
  [.setViewport width height, .navigate url, .waitReady "body",
   .sleepSecs 1, .fullScreenshot 90]

inductive CaptureOutcome where
  | ok (data : List Nat)
  | deadlineExceeded
  | renderFailure
deriving DecidableEq, Repr

/-- The composed context.WithTimeout deadline over the whole pipeline:
once the deadline elapses the run aborts with context.DeadlineExceeded,
whatever the underlying renderer would have produced. -/
def runCapture (timeoutSecs elapsedSecs : Nat) (underlying : CaptureOutcome) :
    CaptureOutcome :=
  if timeoutSecs ≤ elapsedSecs then .deadlineExceeded else underlying

/-! ## Pool invariant lemmas -/

theorem step_capacity (s : PoolState) (e : PoolEvent) :
    (step s e).capacity = s.capacity := by
  cases e with
  | acquireOk => cases h : s.available <;> simp [step, h]
  | acquireFail => rfl
  | release w =>
      simp only [step]
      split <;> rfl

theorem applyTrace_capacity :
    ∀ (tr : List PoolEvent) (s : PoolState),
      (applyTrace s tr).capacity = s.capacity := by
  intro tr
  induction tr with
  | nil => intro s; rfl
  | cons e rest ih =>
      intro s
      rw [applyTrace, ih, step_capacity]

theorem step_inv (s : PoolState) (e : PoolEvent)
    (hv : validEvent s e = true)
    (hinv : s.available.length + s.checkedOut.length = s.capacity) :
    (step s e).available.length + (step s e).checkedOut.length =
      (step s e).capacity := by
  rw [step_capacity]
  cases e with
  | acquireOk =>
      cases h : s.available with
      | nil => simp [validEvent, h] at hv
      | cons w rest =>
          simp only [step, h, List.length_cons]
          rw [h] at hinv
          simp only [List.length_cons] at hinv
          omega
  | acquireFail => exact hinv
  | release w =>
      have hm : w ∈ s.checkedOut := by
        simpa [validEvent] using hv
      have hlen : (s.checkedOut.erase w).length = s.checkedOut.length - 1 :=
        List.length_erase_of_mem hm
      have hpos : 0 < s.checkedOut.length := List.length_pos.mpr
        (fun habs => by rw [habs] at hm; exact absurd hm (List.not_mem_nil w))
      simp only [step]
      split
      · simp only [List.length_cons]
        omega
      · next hfull =>
          exfalso
          exact hfull (by omega)

theorem validTrace_inv :
    ∀ (tr : List PoolEvent) (s : PoolState),
      validTrace s tr = true →
      s.available.length + s.checkedOut.length = s.capacity →
      (applyTrace s tr).available.length + (applyTrace s tr).checkedOut.length =
        (applyTrace s tr).capacity := by
  intro tr
  induction tr with
  | nil => intro s _ hinv; exact hinv
  | cons e rest ih =>
      intro s hval hinv
      rw [validTrace, Bool.and_eq_true] at hval
      exact ih (step s e) hval.2 (step_inv s e hval.1 hinv)

/-- C1: in every admissible sequence of acquire and release events on a
pool of capacity N, the count of checked-out sessions never exceeds N and
the available count plus the checked-out count always equals N. -/
theorem pool_bound_C1 (n : Nat) (tr : List PoolEvent)
    (h : validTrace (initPool n) tr = true) :
    (applyTrace (initPool n) tr).checkedOut.length ≤ n ∧
    (applyTrace (initPool n) tr).available.length +
      (applyTrace (initPool n) tr).checkedOut.length = n := by
  have hinv := validTrace_inv tr (initPool n) h (by simp [initPool])
  have hcap : (applyTrace (initPool n) tr).capacity = n := by
    rw [applyTrace_capacity]
    rfl
  rw [hcap] at hinv
  omega

theorem pool_bound_C1_witness :
    validTrace (initPool 2)
      [PoolEvent.acquireOk, PoolEvent.acquireOk, PoolEvent.release 1,
       PoolEvent.acquireOk] = true ∧
    ((applyTrace (initPool 2)
      [PoolEvent.acquireOk, PoolEvent.acquireOk, PoolEvent.release 1,
       PoolEvent.acquireOk]).checkedOut.length ≤ 2 ∧
     (applyTrace (initPool 2)
      [PoolEvent.acquireOk, PoolEvent.acquireOk, PoolEvent.release 1,
       PoolEvent.acquireOk]).available.length +
     (applyTrace (initPool 2)
      [PoolEvent.acquireOk, PoolEvent.acquireOk, PoolEvent.release 1,
       PoolEvent.acquireOk]).checkedOut.length = 2) :=
  ⟨by decide,
   pool_bound_C1 2
     [PoolEvent.acquireOk, PoolEvent.acquireOk, PoolEvent.release 1,
      PoolEvent.acquireOk] (by decide)⟩

/-- C2: whenever the handler's getWorker succeeds, exactly that worker is
released exactly once, on every exit path (success, deadline exceeded,
render failure, panic). -/
theorem release_always_C2 (env : Env) (cache : CacheMap) (req : Request)
    (w : Nat) (hacq : env.acquire = AcquireOutcome.ok w)
    (hatt : (handleScreenshot env cache req).acquireAttempted = true) :
    (handleScreenshot env cache req).released = [w] := by
  obtain ⟨ce, ttl, now, acq, rend⟩ := env
  simp only at hacq
  subst hacq
  by_cases hurl : req.url = []
  · simp [handleScreenshot, hurl] at hatt
  · cases ce with
    | false => cases rend <;> simp [handleScreenshot, hurl]
    | true =>
        cases hhit : cacheGet cache (requestKey req) now ttl with
        | some data => simp [handleScreenshot, hurl, hhit] at hatt
        | none => cases rend <;> simp [handleScreenshot, hurl, hhit]

theorem release_always_C2_witness :
    (handleScreenshot
      ⟨true, 300, 0, AcquireOutcome.ok 3, RenderOutcome.panics⟩ []
      ⟨[97], "", ""⟩).acquireAttempted = true ∧
    (handleScreenshot
      ⟨true, 300, 0, AcquireOutcome.ok 3, RenderOutcome.panics⟩ []
      ⟨[97], "", ""⟩).released = [3] :=
  ⟨by decide,
   release_always_C2 ⟨true, 300, 0, AcquireOutcome.ok 3, RenderOutcome.panics⟩
     [] ⟨[97], "", ""⟩ 3 rfl (by decide)⟩

/-- C3: a Put followed by a Get strictly within the TTL returns the stored
payload; a Get at or beyond the TTL misses even though the entry is still
present (no sweep has run). -/
theorem cache_correct_C3 (c : CacheMap) (f : String) (v : List Nat)
    (t now ttl : Nat) :
    (now - t < ttl → cacheGet (cachePut c f v t) f now ttl = some v) ∧
    (ttl ≤ now - t → cacheGet (cachePut c f v t) f now ttl = none) := by
  have hl : (cachePut c f v t).lookup f = some (v, t) := by
    simp [cachePut, List.lookup]
  constructor
  · intro h
    simp [cacheGet, hl, h]
  · intro h
    simp only [cacheGet, hl]
    rw [if_neg (by omega)]

theorem cache_correct_C3_witness :
    cacheGet (cachePut [] "k" [7] 0) "k" 10 300 = some [7] ∧
    cacheGet (cachePut [] "k" [7] 0) "k" 300 300 = none :=
  ⟨(cache_correct_C3 [] "k" [7] 0 10 300).1 (by decide),
   (cache_correct_C3 [] "k" [7] 0 300 300).2 (by decide)⟩

/-! ## C4: the claim that getWorker never returns a Session after Shutdown
is false: Shutdown leaves buffered workers in the channel, and with both
the receive arm and the closed-shutdownChan arm ready, Go's select may
take either. -/

/-- C4 counterexample: after Shutdown on a fresh one-worker pool, the
receive arm of getWorker's select is ready and resolving through it
returns worker 0 — a successful Acquire after Shutdown. -/
theorem shutdown_C4_counterexample :
    (shutdownStep (initPool 1)).shutdownClosed = true ∧
    choiceReady (shutdownStep (initPool 1)) false SelectChoice.recvWorker = true ∧
    (getWorkerRun (shutdownStep (initPool 1)) SelectChoice.recvWorker).1 =
      AcquireResult.ok 0 := by
  decide

theorem shutdownStep_done {s : PoolState} (h : s.onceDone = true) :
    shutdownStep s = s := by
  simp [shutdownStep, h]

theorem applyShutdowns_done :
    ∀ (k : Nat) (s : PoolState), s.onceDone = true → applyShutdowns k s = s := by
  intro k
  induction k with
  | zero => intro s _; rfl
  | succ k ih =>
      intro s h
      rw [applyShutdowns, shutdownStep_done h, ih s h]

/-- C4 amended: after Shutdown, the shutdown arm of getWorker's select is
always ready (so no call blocks); a call resolving while the buffer is
empty cannot return a Session; and across any number of repeated Shutdown
calls every worker's cancel runs exactly once (sync.Once). -/
theorem shutdown_safety_C4 (n k w : Nat) (s : PoolState) (c : SelectChoice)
    (elapsed : Bool) (hw : w < n) (hclosed : s.shutdownClosed = true)
    (hempty : s.available = []) (hready : choiceReady s elapsed c = true) :
    (applyShutdowns (k + 1) (initPool n)).cancels w = 1 ∧
    choiceReady s elapsed SelectChoice.shutdownFires = true ∧
    isOkResult (getWorkerRun s c).1 = false := by
  refine ⟨?_, ?_, ?_⟩
  · rw [applyShutdowns,
      applyShutdowns_done k (shutdownStep (initPool n)) (by simp [shutdownStep, initPool])]
    simp [shutdownStep, initPool, hw]
  · simpa [choiceReady] using hclosed
  · cases c with
    | recvWorker => simp [choiceReady, hempty] at hready
    | timeoutFires => rfl
    | shutdownFires => rfl

theorem shutdown_safety_C4_witness :
    (applyShutdowns 1 (initPool 1)).cancels 0 = 1 ∧
    choiceReady (shutdownStep (step (initPool 1) PoolEvent.acquireOk)) false
      SelectChoice.shutdownFires = true ∧
    isOkResult
      (getWorkerRun (shutdownStep (step (initPool 1) PoolEvent.acquireOk))
        SelectChoice.shutdownFires).1 = false :=
  shutdown_safety_C4 1 0 0 (shutdownStep (step (initPool 1) PoolEvent.acquireOk))
    SelectChoice.shutdownFires false (by decide) (by decide) (by decide) (by decide)

/-- C5: every request resolves to exactly one of the statuses 200, 400,
408, 500, 503; 400 exactly when the url parameter is absent; 503 on
acquire timeout; 408 on render deadline exceeded (never 500); 500 on other
render failure; and every 200 carries Content-Type image/png, X-Cache HIT
or MISS, and Cache-Control public, max-age=TTL. -/
theorem http_outcomes_C5 (env : Env) (cache : CacheMap) (req : Request)
    (w : Nat) (buf : List Nat) :
    ((handleScreenshot env cache req).status = 200 ∨
     (handleScreenshot env cache req).status = 400 ∨
     (handleScreenshot env cache req).status = 408 ∨
     (handleScreenshot env cache req).status = 500 ∨
     (handleScreenshot env cache req).status = 503) ∧
    (req.url = [] ↔ (handleScreenshot env cache req).status = 400) ∧
    ((handleScreenshot env cache req).acquireAttempted = true →
      env.acquire = AcquireOutcome.timeoutErr →
      (handleScreenshot env cache req).status = 503) ∧
    ((handleScreenshot env cache req).acquireAttempted = true →
      env.acquire = AcquireOutcome.ok w →
      env.render = RenderOutcome.deadlineExceeded →
      (handleScreenshot env cache req).status = 408) ∧
    ((handleScreenshot env cache req).acquireAttempted = true →
      env.acquire = AcquireOutcome.ok w →
      env.render = RenderOutcome.renderFailure →
      (handleScreenshot env cache req).status = 500) ∧
    ((handleScreenshot env cache req).acquireAttempted = true →
      env.acquire = AcquireOutcome.ok w →
      env.render = RenderOutcome.success buf →
      (handleScreenshot env cache req).status = 200 ∧
      (handleScreenshot env cache req).xCache = some "MISS") ∧
    ((handleScreenshot env cache req).status = 200 →
      (handleScreenshot env cache req).contentType = some "image/png" ∧
      (handleScreenshot env cache req).cacheControl =
        some (cacheControlValue env.cacheDurationSecs) ∧
      ((handleScreenshot env cache req).xCache = some "HIT" ∨
       (handleScreenshot env cache req).xCache = some "MISS")) := by
  obtain ⟨ce, ttl, now, acq, rend⟩ := env
  by_cases hurl : req.url = []
  · simp [handleScreenshot, hurl]
  · cases ce with
    | false => cases acq <;> cases rend <;> simp [handleScreenshot, hurl]
    | true =>
        cases hhit : cacheGet cache (requestKey req) now ttl with
        | some data => simp [handleScreenshot, hurl, hhit]
        | none => cases acq <;> cases rend <;> simp [handleScreenshot, hurl, hhit]

theorem http_outcomes_C5_witness :
    (handleScreenshot
      ⟨true, 300, 0, AcquireOutcome.timeoutErr, RenderOutcome.renderFailure⟩ []
      ⟨[], "", ""⟩).status = 400 ∧
    (handleScreenshot
      ⟨true, 300, 0, AcquireOutcome.timeoutErr, RenderOutcome.renderFailure⟩ []
      ⟨[97], "", ""⟩).status = 503 ∧
    (handleScreenshot
      ⟨true, 300, 0, AcquireOutcome.ok 3, RenderOutcome.deadlineExceeded⟩ []
      ⟨[97], "", ""⟩).status = 408 ∧
    (handleScreenshot
      ⟨true, 300, 0, AcquireOutcome.ok 3, RenderOutcome.success [1]⟩ []
      ⟨[97], "", ""⟩).xCache = some "MISS" :=
  ⟨((http_outcomes_C5
      ⟨true, 300, 0, AcquireOutcome.timeoutErr, RenderOutcome.renderFailure⟩ []
      ⟨[], "", ""⟩ 0 []).2.1).mp rfl,
   (http_outcomes_C5
      ⟨true, 300, 0, AcquireOutcome.timeoutErr, RenderOutcome.renderFailure⟩ []
      ⟨[97], "", ""⟩ 0 []).2.2.1 (by decide) rfl,
   (http_outcomes_C5
      ⟨true, 300, 0, AcquireOutcome.ok 3, RenderOutcome.deadlineExceeded⟩ []
      ⟨[97], "", ""⟩ 3 []).2.2.2.1 (by decide) rfl rfl,
   ((http_outcomes_C5
      ⟨true, 300, 0, AcquireOutcome.ok 3, RenderOutcome.success [1]⟩ []
      ⟨[97], "", ""⟩ 3 [1]).2.2.2.2.2.1 (by decide) rfl rfl).2⟩

/-! ## C6: determinism holds, but injectivity of the fingerprint fails:
MD5 is not injective, and the Wang collision survives appending the
identical ":1x1" suffix (the colliding 128-byte messages fill exactly two
compression blocks). -/

set_option maxRecDepth 1000000 in
/-- C6 counterexample: two distinct urls whose fingerprints at 1x1 agree,
refuting that the fingerprint differs whenever an input differs. -/
theorem fingerprint_C6_counterexample :
    getCacheKey wangMsg1 1 1 = getCacheKey wangMsg2 1 1 ∧ wangMsg1 ≠ wangMsg2 := by
  decide

/-- C6 amended: the fingerprint is deterministic, and the serialized
string url:WxH is injective in (url, width, height) — but the MD5 digest
of distinct serializations can collide, so distinct inputs do not
guarantee distinct fingerprints. -/
theorem fingerprint_C6_amended (u1 u2 : List Nat) (w1 h1 w2 h2 : Nat)
    (hser : serializeKey u1 w1 h1 = serializeKey u2 w2 h2) :
    getCacheKey u1 w1 h1 = getCacheKey u1 w1 h1 ∧
    (u1 = u2 ∧ w1 = w2 ∧ h1 = h2) :=
  ⟨rfl, serializeKey_inj hser⟩

theorem fingerprint_C6_amended_witness :
    getCacheKey [97] 2 3 = getCacheKey [97] 2 3 ∧
    (([97] : List Nat) = [97] ∧ 2 = 2 ∧ 3 = 3) :=
  fingerprint_C6_amended [97] [97] 2 3 2 3 rfl

/-- C7: the capture pipeline is exactly viewport, navigate, readiness
wait, a fixed 1-second settle, then a full-page screenshot at quality 90,
in that order; the whole run sits under one timeout (default 45s) whose
expiry yields the deadline-exceeded outcome, distinct from render
failure. -/
theorem capture_C7 (url : List Nat) (width height timeoutSecs elapsed : Nat)
    (u : CaptureOutcome) (hel : timeoutSecs ≤ elapsed) :
    capturePlan url width height =
      [CaptureAction.setViewport width height, CaptureAction.navigate url,
       CaptureAction.waitReady "body", CaptureAction.sleepSecs 1,
       CaptureAction.fullScreenshot 90] ∧
    screenshotTimeoutSecs "" = 45 ∧
    runCapture timeoutSecs elapsed u = CaptureOutcome.deadlineExceeded ∧
    (CaptureOutcome.deadlineExceeded ≠ CaptureOutcome.renderFailure) := by
  refine ⟨rfl, rfl, ?_, by decide⟩
  unfold runCapture
  rw [if_pos hel]

theorem capture_C7_witness :
    capturePlan [97] 1280 720 =
      [CaptureAction.setViewport 1280 720, CaptureAction.navigate [97],
       CaptureAction.waitReady "body", CaptureAction.sleepSecs 1,
       CaptureAction.fullScreenshot 90] ∧
    screenshotTimeoutSecs "" = 45 ∧
    runCapture 45 45 (CaptureOutcome.ok [1]) = CaptureOutcome.deadlineExceeded ∧
    (CaptureOutcome.deadlineExceeded ≠ CaptureOutcome.renderFailure) :=
  capture_C7 [97] 1280 720 45 45 (CaptureOutcome.ok [1]) (by decide)

/-- C8: a missing url yields 400 with no cache lookup, no cache write, no
pool acquisition and no release; an unparsable, non-positive or
over-bound width/height parameter is replaced by its default rather than
rejected. -/
theorem validation_C8 (env : Env) (cache : CacheMap) (req : Request)
    (p : String) (v : Int) :
    (req.url = [] →
      (handleScreenshot env cache req).status = 400 ∧
      (handleScreenshot env cache req).cacheOut = cache ∧
      (handleScreenshot env cache req).cacheLookups = [] ∧
      (handleScreenshot env cache req).acquireAttempted = false ∧
      (handleScreenshot env cache req).released = []) ∧
    (atoi p = none →
      clampDim p 3840 1280 = 1280 ∧ clampDim p 2160 720 = 720) ∧
    (atoi p = some v → v ≤ 0 →
      clampDim p 3840 1280 = 1280 ∧ clampDim p 2160 720 = 720) ∧
    (atoi p = some v → 3840 < v → clampDim p 3840 1280 = 1280) ∧
    (atoi p = some v → 2160 < v → clampDim p 2160 720 = 720) := by
  have hnone : ∀ bound dflt : Nat, atoi p = none → clampDim p bound dflt = dflt := by
    intro bound dflt h
    unfold clampDim
    split
    · rfl
    · rw [h]
  have hbad : ∀ bound dflt : Nat, atoi p = some v →
      ¬(0 < v ∧ v ≤ (bound : Int)) → clampDim p bound dflt = dflt := by
    intro bound dflt h hneg
    unfold clampDim
    split
    · rfl
    · rw [h]
      exact if_neg hneg
  refine ⟨?_, ?_, ?_, ?_, ?_⟩
  · intro h
    simp [handleScreenshot, h]
  · intro h
    exact ⟨hnone 3840 1280 h, hnone 2160 720 h⟩
  · intro h hv
    exact ⟨hbad 3840 1280 h (by omega), hbad 2160 720 h (by omega)⟩
  · intro h hv
    exact hbad 3840 1280 h (by omega)
  · intro h hv
    exact hbad 2160 720 h (by omega)

theorem validation_C8_witness :
    ((handleScreenshot
        ⟨true, 300, 0, AcquireOutcome.timeoutErr, RenderOutcome.renderFailure⟩
        [] ⟨[], "", ""⟩).status = 400 ∧
     (handleScreenshot
        ⟨true, 300, 0, AcquireOutcome.timeoutErr, RenderOutcome.renderFailure⟩
        [] ⟨[], "", ""⟩).cacheOut = [] ∧
     (handleScreenshot
        ⟨true, 300, 0, AcquireOutcome.timeoutErr, RenderOutcome.renderFailure⟩
        [] ⟨[], "", ""⟩).cacheLookups = [] ∧
     (handleScreenshot
        ⟨true, 300, 0, AcquireOutcome.timeoutErr, RenderOutcome.renderFailure⟩
        [] ⟨[], "", ""⟩).acquireAttempted = false ∧
     (handleScreenshot
        ⟨true, 300, 0, AcquireOutcome.timeoutErr, RenderOutcome.renderFailure⟩
        [] ⟨[], "", ""⟩).released = []) ∧
    (clampDim "abc" 3840 1280 = 1280 ∧ clampDim "abc" 2160 720 = 720) ∧
    (clampDim "-5" 3840 1280 = 1280 ∧ clampDim "-5" 2160 720 = 720) ∧
    clampDim "9999" 3840 1280 = 1280 ∧
    clampDim "9999" 2160 720 = 720 :=
  ⟨(validation_C8
      ⟨true, 300, 0, AcquireOutcome.timeoutErr, RenderOutcome.renderFailure⟩
      [] ⟨[], "", ""⟩ "" 0).1 rfl,
   (validation_C8
      ⟨true, 300, 0, AcquireOutcome.timeoutErr, RenderOutcome.renderFailure⟩
      [] ⟨[], "", ""⟩ "abc" 0).2.1 (by decide),
   (validation_C8
      ⟨true, 300, 0, AcquireOutcome.timeoutErr, RenderOutcome.renderFailure⟩
      [] ⟨[], "", ""⟩ "-5" (-5)).2.2.1 (by decide) (by decide),
   (validation_C8
      ⟨true, 300, 0, AcquireOutcome.timeoutErr, RenderOutcome.renderFailure⟩
      [] ⟨[], "", ""⟩ "9999" 9999).2.2.2.1 (by decide) (by decide),
   (validation_C8
      ⟨true, 300, 0, AcquireOutcome.timeoutErr, RenderOutcome.renderFailure⟩
      [] ⟨[], "", ""⟩ "9999" 9999).2.2.2.2 (by decide) (by decide)⟩

theorem cacheGet_none_mono (c : CacheMap) (k : String) (t1 t2 ttl : Nat)
    (h : cacheGet c k t1 ttl = none) (hle : t1 ≤ t2) :
    cacheGet c k t2 ttl = none := by
  unfold cacheGet at h ⊢
  cases hlk : c.lookup k with
  | none => rfl
  | some vt =>
      obtain ⟨v, ts⟩ := vt
      rw [hlk] at h
      replace h : (if t1 - ts < ttl then some v else none) = none := h
      show (if t2 - ts < ttl then some v else none) = none
      by_cases hc : t1 - ts < ttl
      · rw [if_pos hc] at h
        exact absurd h (by simp)
      · rw [if_neg (show ¬t2 - ts < ttl by omega)]

/-- C9: a successful capture with an empty payload still produces 200 with
X-Cache MISS and an empty body, stores nothing in the cache, and a later
identical request misses again and goes back to the pool. -/
theorem empty_payload_C9 (env env2 : Env) (cache : CacheMap) (req : Request)
    (w : Nat) (hurl : req.url ≠ [])
    (hce : env.cacheEnabled = true)
    (hmiss : cacheGet cache (requestKey req) env.now env.cacheDurationSecs = none)
    (hacq : env.acquire = AcquireOutcome.ok w)
    (hrend : env.render = RenderOutcome.success [])
    (hsame : env2.cacheDurationSecs = env.cacheDurationSecs)
    (hmono : env.now ≤ env2.now) :
    (handleScreenshot env cache req).status = 200 ∧
    (handleScreenshot env cache req).xCache = some "MISS" ∧
    (handleScreenshot env cache req).body = [] ∧
    (handleScreenshot env cache req).cacheOut = cache ∧
    (handleScreenshot env2 (handleScreenshot env cache req).cacheOut req).xCache
      ≠ some "HIT" ∧
    (handleScreenshot env2 (handleScreenshot env cache req).cacheOut
      req).acquireAttempted = true := by
  obtain ⟨ce, ttl, now, acq, rend⟩ := env
  obtain ⟨ce2, ttl2, now2, acq2, rend2⟩ := env2
  simp only at hce hmiss hacq hrend hsame hmono
  subst hce hacq hrend hsame
  have hfirst :
      handleScreenshot ⟨true, ttl2, now, AcquireOutcome.ok w,
        RenderOutcome.success []⟩ cache req =
      { status := 200, contentType := some "image/png", xCache := some "MISS",
        cacheControl := some (cacheControlValue ttl2), body := [],
        cacheOut := cache, cacheLookups := [requestKey req],
        acquireAttempted := true, released := [w] } := by
    simp [handleScreenshot, hurl, hmiss]
  rw [hfirst]
  have hmiss2 : cacheGet cache (requestKey req) now2 ttl2 = none :=
    cacheGet_none_mono cache (requestKey req) now now2 ttl2 hmiss hmono
  refine ⟨rfl, rfl, rfl, rfl, ?_, ?_⟩ <;>
    cases ce2 <;> cases acq2 <;> cases rend2 <;>
      simp [handleScreenshot, hurl, hmiss2]

theorem empty_payload_C9_witness :
    (handleScreenshot
      ⟨true, 300, 0, AcquireOutcome.ok 2, RenderOutcome.success []⟩ []
      ⟨[97], "", ""⟩).status = 200 ∧
    (handleScreenshot
      ⟨true, 300, 0, AcquireOutcome.ok 2, RenderOutcome.success []⟩ []
      ⟨[97], "", ""⟩).xCache = some "MISS" ∧
    (handleScreenshot
      ⟨true, 300, 0, AcquireOutcome.ok 2, RenderOutcome.success []⟩ []
      ⟨[97], "", ""⟩).body = [] ∧
    (handleScreenshot
      ⟨true, 300, 0, AcquireOutcome.ok 2, RenderOutcome.success []⟩ []
      ⟨[97], "", ""⟩).cacheOut = [] ∧
    (handleScreenshot ⟨true, 300, 10, AcquireOutcome.ok 2, RenderOutcome.success [5]⟩
      (handleScreenshot
        ⟨true, 300, 0, AcquireOutcome.ok 2, RenderOutcome.success []⟩ []
        ⟨[97], "", ""⟩).cacheOut ⟨[97], "", ""⟩).xCache ≠ some "HIT" ∧
    (handleScreenshot ⟨true, 300, 10, AcquireOutcome.ok 2, RenderOutcome.success [5]⟩
      (handleScreenshot
        ⟨true, 300, 0, AcquireOutcome.ok 2, RenderOutcome.success []⟩ []
        ⟨[97], "", ""⟩).cacheOut ⟨[97], "", ""⟩).acquireAttempted = true :=
  empty_payload_C9
    ⟨true, 300, 0, AcquireOutcome.ok 2, RenderOutcome.success []⟩
    ⟨true, 300, 10, AcquireOutcome.ok 2, RenderOutcome.success [5]⟩
    [] ⟨[97], "", ""⟩ 2 (by decide) rfl (by decide) rfl rfl rfl (by decide)

/-- C10: an acquire-timeout request increments both the timeout counter
and the failed counter by exactly one, and the health report exposes both
updated counters verbatim. -/
theorem timeout_metrics_C10 (env : Env) (cache : CacheMap) (req : Request)
    (m : Metrics) (avail maxW : Nat)
    (hacq : env.acquire = AcquireOutcome.timeoutErr)
    (hatt : (handleScreenshot env cache req).acquireAttempted = true) :
    (handleScreenshot env cache req).timeoutDelta = 1 ∧
    (handleScreenshot env cache req).failedDelta = 1 ∧
    (handleHealth (applyRequest m (handleScreenshot env cache req)) avail
      maxW).failedReported = m.failed + 1 ∧
    (handleHealth (applyRequest m (handleScreenshot env cache req)) avail
      maxW).timeoutReported = m.timeouts + 1 := by
  obtain ⟨ce, ttl, now, acq, rend⟩ := env
  simp only at hacq
  subst hacq
  by_cases hurl : req.url = []
  · simp [handleScreenshot, hurl] at hatt
  · cases ce with
    | false => simp [handleScreenshot, hurl, handleHealth, applyRequest]
    | true =>
        cases hhit : cacheGet cache (requestKey req) now ttl with
        | some data => simp [handleScreenshot, hurl, hhit] at hatt
        | none => simp [handleScreenshot, hurl, hhit, handleHealth, applyRequest]

theorem timeout_metrics_C10_witness :
    (handleScreenshot
      ⟨true, 300, 0, AcquireOutcome.timeoutErr, RenderOutcome.renderFailure⟩ []
      ⟨[97], "", ""⟩).timeoutDelta = 1 ∧
    (handleScreenshot
      ⟨true, 300, 0, AcquireOutcome.timeoutErr, RenderOutcome.renderFailure⟩ []
      ⟨[97], "", ""⟩).failedDelta = 1 ∧
    (handleHealth
      (applyRequest ⟨5, 2, 1⟩
        (handleScreenshot
          ⟨true, 300, 0, AcquireOutcome.timeoutErr, RenderOutcome.renderFailure⟩ []
          ⟨[97], "", ""⟩)) 4 20).failedReported = 2 + 1 ∧
    (handleHealth
      (applyRequest ⟨5, 2, 1⟩
        (handleScreenshot
          ⟨true, 300, 0, AcquireOutcome.timeoutErr, RenderOutcome.renderFailure⟩ []
          ⟨[97], "", ""⟩)) 4 20).timeoutReported = 1 + 1 :=
  timeout_metrics_C10
    ⟨true, 300, 0, AcquireOutcome.timeoutErr, RenderOutcome.renderFailure⟩ []
    ⟨[97], "", ""⟩ ⟨5, 2, 1⟩ 4 20 rfl (by decide)

end Webshot
